import Mathlib

/-!
A shallow embedding of the client-side cart/order controller in
`src/static/js/main.js` of the grocery-store app, together with proofs of the
specified properties.

Modelling conventions:
* JS strings are Lean `String`s; character-level work uses `String.data`.
* JS numbers appearing in the claims are integers (`Int`) or, for the price
  formatter, rationals (`ℚ`); `NaN` outcomes of `parseInt` are `none` in an
  `Option Int`.
* A JS `null` argument is `none`.
* Each event handler is embedded as a pure function from its inputs (form
  field contents, the user's answer to a `confirm` prompt, and the server's
  reply to the request the handler may send) to a record of its observable
  effects: the request issued (if any), the notifications shown, and the
  DOM/navigation side effects.
* The server reply is `none` for a transport or JSON-parse failure, and
  `some v` for a parsed JSON body `v`.
-/

/-- The JS whitespace characters (`\s`) relevant here: the ASCII whitespace
characters and no-break space.  (The full JS class also holds rarer Unicode
space characters; none occur in the program's data or the claims.) -/
def isJsSpace (c : Char) : Bool :=
  c = ' ' || c = '\t' || c = '\n' || c = '\r' || c = '\x0b' || c = '\x0c' || c = '\xa0'

/-- A character of the class `[^\s@]` from the email regular expression. -/
def emailChar (c : Char) : Bool :=
  !isJsSpace c && c != '@'

/-- `String.prototype.trim`: drop leading and trailing whitespace. -/
def trimJs (s : String) : String :=
  ⟨((s.data.dropWhile isJsSpace).reverse.dropWhile isJsSpace).reverse⟩

/-- Value of a list of decimal digit characters, most significant first. -/
def digitsVal (l : List Char) : Nat :=
  l.foldl (fun acc c => 10 * acc + (c.toNat - '0'.toNat)) 0

/-- The decimal value of the leading digit run of `l`; `none` when `l` does
not start with a digit. -/
def leadingDigitsVal (l : List Char) : Option Nat :=
  let ds := l.takeWhile Char.isDigit
  if ds = [] then none else some (digitsVal ds)

/-- JS `parseInt(s)` (radix 10): skip leading whitespace, read an optional
sign and then the leading run of decimal digits; `none` models `NaN`.
(The hexadecimal `0x` form of `parseInt` is not modelled; no caller in the
program passes such a string.) -/
def parseIntJs (s : String) : Option Int :=
  match s.data.dropWhile isJsSpace with
  | '-' :: rest => (leadingDigitsVal rest).map (fun n => -(n : Int))
  | '+' :: rest => (leadingDigitsVal rest).map (fun n => (n : Int))
  | t => (leadingDigitsVal t).map (fun n => (n : Int))

/-- `validatePhone` from `main.js`: `/^\d{10}$/.test(phone.replace(/\D/g, ''))`.
The replacement deletes every non-digit character; the regex test then asks
for exactly ten digit characters. -/
def validatePhone (phone : String) : Bool :=
  let stripped := phone.data.filter Char.isDigit
  stripped.length = 10 && stripped.all Char.isDigit

/-- `validateEmail` from `main.js`: the denotation of the regular expression
`/^[^\s@]+@[^\s@]+\.[^\s@]+$/` — the string splits as a nonempty run of
`[^\s@]` characters, an `@`, a nonempty run of `[^\s@]`, a `.`, and a final
nonempty run of `[^\s@]`. -/
def validateEmail (s : String) : Prop :=
  ∃ x y z : List Char,
    x ≠ [] ∧ y ≠ [] ∧ z ≠ [] ∧
    (∀ c ∈ x, emailChar c = true) ∧
    (∀ c ∈ y, emailChar c = true) ∧
    (∀ c ∈ z, emailChar c = true) ∧
    s.data = x ++ '@' :: (y ++ '.' :: z)

/-- A flash notification: its message text and its severity class
(`"success"` or `"error"`), as passed to `showNotification`. -/
structure Notification where
  message : String
  severity : String
deriving DecidableEq, Repr

/-- The HTTP requests the controller can issue, with the JSON bodies built in
`main.js`.  An `addToCart` quantity of `none` models the `NaN` case of
`parseInt`. -/
inductive Request where
  | cartCountReq : Request
  | addToCartReq (product_id : String) (quantity : Option Int) : Request
  | updateCartReq (product_id : String) (quantity : Int) : Request
  | removeFromCartReq (product_id : String) : Request
  | placeOrderReq (address : String) (phone : String) : Request
deriving DecidableEq, Repr

/-- The observable effects of `updateCartCount()`.  `badge = none` means the
badge text was left unchanged. -/
structure UpdateCartCountOutcome where
  badge : Option Int
  notifications : List Notification
  errorLogged : Bool
deriving DecidableEq, Repr

/-- JS `count || 0` for an integer-or-absent `count` field: `0`, `null` and a
missing field are falsy. -/
def jsOrZero (count : Option Int) : Int :=
  match count with
  | some c => if c = 0 then 0 else c
  | none => 0

/-- `updateCartCount` from `main.js`.  `resp` is the server reply to
`GET /api/cart/count`: `none` for a fetch or JSON-parse failure, otherwise
`some count` with `count` the (possibly absent) `count` field of the body.
On failure the `catch` handler only logs; nothing else happens. -/
def updateCartCount (resp : Option (Option Int)) : UpdateCartCountOutcome :=
  match resp with
  | none => { badge := none, notifications := [], errorLogged := true }
  | some count => { badge := some (jsOrZero count), notifications := [], errorLogged := false }

/-- The observable effects of `addToCart`. -/
structure AddToCartOutcome where
  request : Option Request
  notifications : List Notification
  cartCountRefreshed : Bool
  qtyInputReset : Bool
deriving DecidableEq, Repr

/-- The quantity `addToCart` resolves:
`quantity || (qtyInput ? parseInt(qtyInput.value) : 1)`.
`quantity` is the optional argument (`none` = JS `null`); `qtyInput` is the
value of the `qty-<productId>` input, or `none` when that element is absent.
A `0` argument is falsy in JS, so it falls through to the input field.
The result is `none` when `parseInt` produced `NaN`. -/
def resolveQty (quantity : Option Int) (qtyInput : Option String) : Option Int :=
  let fallback : Option Int :=
    match qtyInput with
    | some v => parseIntJs v
    | none => some 1
  match quantity with
  | some q => if q = 0 then fallback else some q
  | none => fallback

/-- The JS comparison `qty < 1`, where `qty` may be `NaN` (`none`):
`NaN < 1` is `false`. -/
def qtyBelowOne (qty : Option Int) : Bool :=
  match qty with
  | some q => q < 1
  | none => false

/-- `addToCart(productId, quantity)` from `main.js`.  `qtyInput` is the
content of the per-product quantity field (`none` when the element does not
exist); `resp` is the reply to `POST /add_to_cart` (`none` = transport/parse
failure, `some b` = body with success flag `b`), consulted only if a request
is sent. -/
def addToCart (productId : String) (quantity : Option Int)
    (qtyInput : Option String) (resp : Option Bool) : AddToCartOutcome :=
  let qty := resolveQty quantity qtyInput
  if qtyBelowOne qty then
    { request := none
      notifications := [⟨"Please select a valid quantity", "error"⟩]
      cartCountRefreshed := false
      qtyInputReset := false }
  else
    match resp with
    | some true =>
      { request := some (.addToCartReq productId qty)
        notifications := [⟨"Product added to cart!", "success"⟩]
        cartCountRefreshed := true
        qtyInputReset := qtyInput.isSome }
    | some false =>
      { request := some (.addToCartReq productId qty)
        notifications := [⟨"Error adding product to cart", "error"⟩]
        cartCountRefreshed := false
        qtyInputReset := false }
    | none =>
      { request := some (.addToCartReq productId qty)
        notifications := [⟨"Error adding product to cart", "error"⟩]
        cartCountRefreshed := false
        qtyInputReset := false }

/-- The observable effects of `removeFromCart`. -/
structure RemoveFromCartOutcome where
  request : Option Request
  notifications : List Notification
  lineElementRemoved : Bool
  cartCountRefreshed : Bool
  pageReloaded : Bool
deriving DecidableEq, Repr

/-- `removeFromCart(productId)` from `main.js`.  `confirmAnswer` is the
user's reply to the `confirm('Remove this item from cart?')` prompt; when it
is `false` the function returns before doing anything.  `resp` is the reply
to `POST /remove_from_cart`. -/
def removeFromCart (productId : String) (confirmAnswer : Bool)
    (resp : Option Bool) : RemoveFromCartOutcome :=
  if !confirmAnswer then
    { request := none, notifications := [], lineElementRemoved := false
      cartCountRefreshed := false, pageReloaded := false }
  else
    match resp with
    | some true =>
      { request := some (.removeFromCartReq productId)
        notifications := [⟨"Item removed from cart", "success"⟩]
        lineElementRemoved := true
        cartCountRefreshed := true
        pageReloaded := true }
    | some false =>
      { request := some (.removeFromCartReq productId)
        notifications := [⟨"Error removing item", "error"⟩]
        lineElementRemoved := false
        cartCountRefreshed := false
        pageReloaded := false }
    | none =>
      { request := some (.removeFromCartReq productId)
        notifications := [⟨"Error removing item", "error"⟩]
        lineElementRemoved := false
        cartCountRefreshed := false
        pageReloaded := false }

/-- The observable effects of `updateQuantity`.  When `newQuantity < 1` the
function delegates to `removeFromCart` and `removal` holds that call's
outcome; otherwise `removal = none`. -/
structure UpdateQuantityOutcome where
  removal : Option RemoveFromCartOutcome
  request : Option Request
  notifications : List Notification
  pageReloaded : Bool
deriving DecidableEq, Repr

/-- `updateQuantity(productId, newQuantity)` from `main.js`.  `confirmAnswer`
and `removeResp` feed the delegated `removeFromCart` call (used only when
`newQuantity < 1`); `resp` is the reply to `POST /update_cart` (used only
otherwise). -/
def updateQuantity (productId : String) (newQuantity : Int)
    (confirmAnswer : Bool) (removeResp : Option Bool)
    (resp : Option Bool) : UpdateQuantityOutcome :=
  if newQuantity < 1 then
    { removal := some (removeFromCart productId confirmAnswer removeResp)
      request := none
      notifications := []
      pageReloaded := false }
  else
    match resp with
    | some true =>
      { removal := none
        request := some (.updateCartReq productId newQuantity)
        notifications := []
        pageReloaded := true }
    | some false =>
      { removal := none
        request := some (.updateCartReq productId newQuantity)
        notifications := [⟨"Error updating cart", "error"⟩]
        pageReloaded := false }
    | none =>
      { removal := none
        request := some (.updateCartReq productId newQuantity)
        notifications := [⟨"Error updating cart", "error"⟩]
        pageReloaded := false }

/-- The observable effects of `placeOrder`. -/
structure PlaceOrderOutcome where
  request : Option Request
  notifications : List Notification
  navigationScheduled : Bool
deriving DecidableEq, Repr

/-- JS `message || 'Error placing order'`: a missing or empty `message`
field is falsy. -/
def jsOrDefaultMsg (message : Option String) (d : String) : String :=
  match message with
  | some m => if m = "" then d else m
  | none => d

/-- `placeOrder()` from `main.js`.  `addressField` and `phoneField` are the
raw contents of the two form inputs; both are `.trim()`ed first.  The empty
trimmed address is falsy (`!address`), so validation fails; then the trimmed
phone must pass `validatePhone`.  `resp` is the reply to `POST /place_order`:
`none` for transport/parse failure, `some (ok, message)` for a parsed body. -/
def placeOrder (addressField phoneField : String)
    (resp : Option (Bool × Option String)) : PlaceOrderOutcome :=
  let address := trimJs addressField
  let phone := trimJs phoneField
  if address = "" then
    { request := none
      notifications := [⟨"Please enter delivery address", "error"⟩]
      navigationScheduled := false }
  else if !validatePhone phone then
    { request := none
      notifications := [⟨"Please enter a valid phone number", "error"⟩]
      navigationScheduled := false }
  else
    match resp with
    | some (true, _) =>
      { request := some (.placeOrderReq address phone)
        notifications := [⟨"Order placed successfully!", "success"⟩]
        navigationScheduled := true }
    | some (false, message) =>
      { request := some (.placeOrderReq address phone)
        notifications := [⟨jsOrDefaultMsg message "Error placing order", "error"⟩]
        navigationScheduled := false }
    | none =>
      { request := some (.placeOrderReq address phone)
        notifications := [⟨"Error placing order", "error"⟩]
        navigationScheduled := false }

/-- ECMAScript `Number.prototype.toFixed(2)` rounding: the integer `n` for
which `n / 100` is as close as possible to `x`, ties resolved to the larger
`n`.  On the non-negative range this is `⌊100·x + 1/2⌋`.  Numbers are
modelled as rationals; the exponent notation `toFixed` switches to above
`10^21` is outside the model. -/
def jsRoundFixed2 (x : ℚ) : ℤ :=
  ⌊100 * x + 1 / 2⌋

/-- The decimal rendering `toFixed(2)` produces on the non-negative range:
the integer part of `n / 100` followed by `.` and the two remaining decimal
digits, where `n = jsRoundFixed2 x`. -/
def toFixed2 (x : ℚ) : String :=
  Nat.repr ((jsRoundFixed2 x).toNat / 100) ++ "." ++
    Nat.repr ((jsRoundFixed2 x).toNat % 100 / 10) ++
    Nat.repr ((jsRoundFixed2 x).toNat % 10)

/-- `formatPrice` from `main.js`: `` `$${parseFloat(price).toFixed(2)}` ``.
For a numeric argument `parseFloat` is the identity, so the result is `$`
followed by the `toFixed(2)` rendering. -/
def formatPrice (x : ℚ) : String :=
  "$" ++ toFixed2 x

/-- The numeric value displayed by `formatPrice x`: the number `parseFloat`
recovers from the formatted string once the `$` prefix is removed.  By
construction of `toFixed2` this is `n / 100` for `n = jsRoundFixed2 x`. -/
def formatPriceValue (x : ℚ) : ℚ :=
  ((jsRoundFixed2 x : ℤ) : ℚ) / 100

/-- If a list equals `a ++ c :: b` and also `x ++ c :: y`, and `c` occurs in
neither `a` nor `x`, the two splits agree. -/
theorem splitAtUnique {α : Type} (c : α) :
    ∀ (a : List α) (x b y : List α), c ∉ a → c ∉ x →
      a ++ c :: b = x ++ c :: y → a = x ∧ b = y := by
  intro a
  induction a with
  | nil =>
    intro x b y _ hx h
    cases x with
    | nil => simpa using h
    | cons d x' =>
      simp only [List.nil_append, List.cons_append, List.cons.injEq] at h
      obtain ⟨rfl, -⟩ := h
      exact absurd (List.mem_cons_self _ _) hx
  | cons d a' ih =>
    intro x b y ha hx h
    cases x with
    | nil =>
      simp only [List.cons_append, List.nil_append, List.cons.injEq] at h
      obtain ⟨rfl, -⟩ := h
      exact absurd (List.mem_cons_self _ _) ha
    | cons e x' =>
      simp only [List.cons_append, List.cons.injEq] at h
      obtain ⟨rfl, h2⟩ := h
      have hr := ih x' b y (fun hc => ha (List.mem_cons_of_mem _ hc))
        (fun hc => hx (List.mem_cons_of_mem _ hc)) h2
      exact ⟨by rw [hr.1], hr.2⟩

/-- Claim C1, counterexample: the quantity argument `0` satisfies `q ≤ 0`,
yet `addToCart("P1", 0)` with the quantity field containing `"3"` issues a
request (with quantity 3) and shows a success notification rather than an
error: in `quantity || (qtyInput ? parseInt(qtyInput.value) : 1)` the value
`0` is falsy, so the argument is ignored in favour of the input field. -/
theorem addToCart_zero_arg_counterexample :
    (0 : Int) ≤ 0 ∧
    (addToCart "P1" (some 0) (some "3") (some true)).request
      = some (.addToCartReq "P1" (some 3)) ∧
    (addToCart "P1" (some 0) (some "3") (some true)).notifications
      = [⟨"Product added to cart!", "success"⟩] := by
  refine ⟨le_refl 0, ?_, ?_⟩ <;> decide

/-- Claim C1, amended: for every strictly negative quantity argument
`q < 0` (a truthy value, so it is not overridden by the input field),
`addToCart` issues no network request and shows the error notification.
A `q = 0` argument is falsy in JS and is replaced by the input-field
quantity, so the rejection is not triggered by the argument itself. -/
theorem addToCart_negative_arg_rejected (pid : String) (q : Int)
    (input : Option String) (resp : Option Bool) (hq : q < 0) :
    (addToCart pid (some q) input resp).request = none ∧
    (addToCart pid (some q) input resp).notifications
      = [⟨"Please select a valid quantity", "error"⟩] := by
  have hq0 : q ≠ 0 := by omega
  have hq1 : q < 1 := by omega
  simp [addToCart, resolveQty, qtyBelowOne, hq0, hq1]

/-- Witness for the amended claim C1 at `q = -1`. -/
theorem addToCart_negative_arg_rejected_witness :
    (addToCart "P1" (some (-1)) (some "3") (some true)).request = none ∧
    (addToCart "P1" (some (-1)) (some "3") (some true)).notifications
      = [⟨"Please select a valid quantity", "error"⟩] :=
  addToCart_negative_arg_rejected "P1" (-1) (some "3") (some true) (by decide)

/-- Claim C3: for every `newQuantity < 1`, `updateQuantity` delegates to
`removeFromCart(productId)` and sends nothing to the `/update_cart`
endpoint. -/
theorem updateQuantity_below_one_delegates (pid : String) (q : Int)
    (confirmAnswer : Bool) (removeResp resp : Option Bool) (hq : q < 1) :
    (updateQuantity pid q confirmAnswer removeResp resp).removal
      = some (removeFromCart pid confirmAnswer removeResp) ∧
    (updateQuantity pid q confirmAnswer removeResp resp).request = none := by
  simp [updateQuantity, hq]

/-- Witness for claim C3 at the spec's scenario `updateQuantity("P1", 0)`. -/
theorem updateQuantity_below_one_delegates_witness :
    (updateQuantity "P1" 0 false none none).removal
      = some (removeFromCart "P1" false none) ∧
    (updateQuantity "P1" 0 false none none).request = none :=
  updateQuantity_below_one_delegates "P1" 0 false none none (by decide)

/-- Claim C4: when the user declines the `confirm` prompt, `removeFromCart`
returns immediately: no request, no notification, no DOM or navigation
effect. -/
theorem removeFromCart_declined (pid : String) (resp : Option Bool) :
    removeFromCart pid false resp =
      { request := none, notifications := [], lineElementRemoved := false
        cartCountRefreshed := false, pageReloaded := false } :=
  rfl

/-- Claim C6: `addToCart("P1", null)` with the `qty-P1` field containing
`"3"` sends `{product_id: "P1", quantity: 3}`; on a `success: true` reply a
success notification is shown, the cart count is re-fetched, and the
quantity input is reset to 1. -/
theorem addToCart_null_arg_scenario :
    addToCart "P1" none (some "3") (some true) =
      { request := some (.addToCartReq "P1" (some 3))
        notifications := [⟨"Product added to cart!", "success"⟩]
        cartCountRefreshed := true
        qtyInputReset := true } := by
  decide

/-- Claim C2: `placeOrder` first rejects an empty trimmed address with the
error "Please enter delivery address" and no request; then rejects a phone
that fails `validatePhone` with "Please enter a valid phone number" and no
request; and only when both checks pass sends `{address, phone}` (both
trimmed). -/
theorem placeOrder_validation :
    (∀ (af pf : String) (resp : Option (Bool × Option String)),
        trimJs af = "" →
        placeOrder af pf resp =
          { request := none
            notifications := [⟨"Please enter delivery address", "error"⟩]
            navigationScheduled := false }) ∧
    (∀ (af pf : String) (resp : Option (Bool × Option String)),
        trimJs af ≠ "" → validatePhone (trimJs pf) = false →
        placeOrder af pf resp =
          { request := none
            notifications := [⟨"Please enter a valid phone number", "error"⟩]
            navigationScheduled := false }) ∧
    (∀ (af pf : String) (resp : Option (Bool × Option String)),
        trimJs af ≠ "" → validatePhone (trimJs pf) = true →
        (placeOrder af pf resp).request
          = some (.placeOrderReq (trimJs af) (trimJs pf))) := by
  refine ⟨fun af pf resp h => ?_, fun af pf resp h1 h2 => ?_,
    fun af pf resp h1 h2 => ?_⟩
  · simp [placeOrder, h]
  · simp [placeOrder, h1, h2]
  · rcases resp with _ | ⟨b, msg⟩
    · simp [placeOrder, h1, h2]
    · cases b <;> simp [placeOrder, h1, h2]

/-- Witness for claim C2: the three branches at concrete form contents. -/
theorem placeOrder_validation_witness :
    placeOrder "" "5551234567" none =
      { request := none
        notifications := [⟨"Please enter delivery address", "error"⟩]
        navigationScheduled := false } ∧
    placeOrder "12 Oak St" "123" none =
      { request := none
        notifications := [⟨"Please enter a valid phone number", "error"⟩]
        navigationScheduled := false } ∧
    (placeOrder "12 Oak St" "5551234567" (some (true, none))).request
      = some (.placeOrderReq "12 Oak St" "5551234567") := by
  refine ⟨?_, ?_, ?_⟩
  · exact placeOrder_validation.1 "" "5551234567" none (by decide)
  · exact placeOrder_validation.2.1 "12 Oak St" "123" none (by decide) (by decide)
  · exact placeOrder_validation.2.2 "12 Oak St" "5551234567" (some (true, none))
      (by decide) (by decide)

/-- Claim C5: `validatePhone` returns `true` exactly when deleting the
non-digit characters leaves exactly ten digits; the three example strings
behave as the spec says. -/
theorem validatePhone_ten_digits :
    (∀ s : String,
        validatePhone s = true ↔ (s.data.filter Char.isDigit).length = 10) ∧
    validatePhone "(555) 123-4567" = true ∧
    validatePhone "555-123-456" = false ∧
    validatePhone "55512345678" = false := by
  refine ⟨fun s => ?_, by decide, by decide, by decide⟩
  have hall : (s.data.filter Char.isDigit).all Char.isDigit = true := by
    rw [List.all_eq_true]
    intro c hc
    exact (List.mem_filter.mp hc).2
  simp [validatePhone, hall]

/-- Claim C7: `updateCartCount` never shows a notification, and on a fetch
or parse failure it only logs the error and leaves the badge text
unchanged. -/
theorem updateCartCount_silent :
    (∀ resp : Option (Option Int), (updateCartCount resp).notifications = []) ∧
    (updateCartCount none).badge = none ∧
    (updateCartCount none).errorLogged = true := by
  refine ⟨fun resp => ?_, rfl, rfl⟩
  cases resp <;> rfl

/-- Claim C8: `validateEmail` rejects every string with no `@`, rejects
every string whose portion after the (first) `@` has no `.`, and accepts
`"a@b.c"`. -/
theorem validateEmail_spec :
    (∀ s : String, '@' ∉ s.data → ¬ validateEmail s) ∧
    (∀ a b : List Char, '@' ∉ a → '.' ∉ b → ¬ validateEmail ⟨a ++ '@' :: b⟩) ∧
    validateEmail "a@b.c" := by
  refine ⟨?_, ?_, ?_⟩
  · rintro s hs ⟨x, y, z, -, -, -, -, -, -, hdecomp⟩
    apply hs
    rw [hdecomp]
    exact List.mem_append_right x (List.mem_cons_self _ _)
  · rintro a b ha hb ⟨x, y, z, -, -, -, hx, -, -, hdecomp⟩
    have hxat : '@' ∉ x := by
      intro hmem
      have h1 := hx '@' hmem
      simp [emailChar, isJsSpace] at h1
    have hsplit := splitAtUnique '@' a x b (y ++ '.' :: z) ha hxat hdecomp
    apply hb
    rw [hsplit.2]
    exact List.mem_append_right y (List.mem_cons_self _ _)
  · exact ⟨['a'], ['b'], ['c'], by decide, by decide, by decide, by decide,
      by decide, by decide, by decide⟩

/-- Witness for claim C8: a string without `@` and a string with an `@` but
no later `.` are both rejected. -/
theorem validateEmail_spec_witness :
    ¬ validateEmail "abc" ∧ ¬ validateEmail "a@bc" := by
  constructor
  · exact validateEmail_spec.1 "abc" (by decide)
  · exact validateEmail_spec.2.1 ['a'] ['b', 'c'] (by decide) (by decide)

/-- Rounding to hundredths is the identity on integer multiples of `1/100`. -/
theorem jsRoundFixed2_intCast_div (n : ℤ) :
    jsRoundFixed2 ((n : ℚ) / 100) = n := by
  unfold jsRoundFixed2
  have h : (100 : ℚ) * ((n : ℚ) / 100) = (n : ℚ) := by ring
  rw [h, Int.floor_int_add]
  norm_num

/-- Claim C9: for every non-negative rational `x`, formatting the numeric
value displayed by `formatPrice x` reproduces `formatPrice x` exactly, and
`formatPrice x` is a `$` prefix followed by an integer part, a dot and two
decimal digits. -/
theorem formatPrice_idempotent (x : ℚ) (_hx : 0 ≤ x) :
    formatPrice (formatPriceValue x) = formatPrice x ∧
    ∃ m d₁ d₂ : ℕ, d₁ < 10 ∧ d₂ < 10 ∧
      formatPrice x =
        "$" ++ (Nat.repr m ++ "." ++ Nat.repr d₁ ++ Nat.repr d₂) := by
  have key : jsRoundFixed2 (formatPriceValue x) = jsRoundFixed2 x :=
    jsRoundFixed2_intCast_div (jsRoundFixed2 x)
  constructor
  · unfold formatPrice toFixed2
    rw [key]
  · exact ⟨(jsRoundFixed2 x).toNat / 100, (jsRoundFixed2 x).toNat % 100 / 10,
      (jsRoundFixed2 x).toNat % 10, by omega, by omega, rfl⟩

/-- Witness for claim C9 at `x = 3/2`: the formatted string is `"$1.50"`
and re-formatting its numeric part reproduces it. -/
theorem formatPrice_idempotent_witness :
    formatPrice (formatPriceValue (3 / 2 : ℚ)) = formatPrice (3 / 2 : ℚ) ∧
    formatPrice (3 / 2 : ℚ) = "$1.50" := by
  constructor
  · exact (formatPrice_idempotent (3 / 2) (by norm_num)).1
  · have h : jsRoundFixed2 (3 / 2 : ℚ) = 150 := by
      unfold jsRoundFixed2
      norm_num
    unfold formatPrice toFixed2
    rw [h]
    rfl

/-- Claim C10: when both `placeOrder` checks pass, the phone value in the
request body is the trimmed raw form string, not the digit-stripped
ten-digit string; in particular `"(555) 123-4567"` is sent with its
punctuation and spaces intact. -/
theorem placeOrder_sends_raw_phone :
    (∀ (af pf : String) (resp : Option (Bool × Option String)),
        trimJs af ≠ "" → validatePhone (trimJs pf) = true →
        (placeOrder af pf resp).request
          = some (.placeOrderReq (trimJs af) (trimJs pf))) ∧
    (placeOrder "12 Oak St" "(555) 123-4567" (some (true, none))).request
      = some (.placeOrderReq "12 Oak St" "(555) 123-4567") ∧
    "(555) 123-4567" ≠ "5551234567" := by
  refine ⟨fun af pf resp h1 h2 => ?_, by decide, by decide⟩
  rcases resp with _ | ⟨b, msg⟩
  · simp [placeOrder, h1, h2]
  · cases b <;> simp [placeOrder, h1, h2]

/-- Witness for claim C10: an address and a punctuated phone with
surrounding whitespace pass validation and the request carries the trimmed
raw strings. -/
theorem placeOrder_sends_raw_phone_witness :
    (placeOrder "5 Elm St" " (555) 123-4567 " none).request
      = some (.placeOrderReq "5 Elm St" "(555) 123-4567") := by
  exact placeOrder_sends_raw_phone.1 "5 Elm St" " (555) 123-4567 " none
    (by decide) (by decide)
